import Mathlib

set_option linter.unusedVariables false
set_option maxRecDepth 100000

/-!
Shallow embedding of the job execution layer of `snakemake/executors.py`
(executor classes `AbstractExecutor`, `DryrunExecutor`, `TouchExecutor`,
`CPUExecutor`, `ClusterExecutor`, `GenericClusterExecutor`,
`SynchronousClusterExecutor`, `DRMAAExecutor` and the module-level
`run_wrapper`).

Stateful code is modelled by explicit traces: each `run` method, completion
callback and poller step is embedded as a pure function from its decision
inputs (exception outcomes, sentinel-file existence, process exit codes,
captured stdout) to the list of observable events it performs, in source
order.  Machine-level collaborators (`dag.handle_touch`, `persistence`,
`logger`, the process pool, the shell) appear as events, since their bodies
are outside this module.
-/

namespace Executors

/-- Kind of exception rendered through `print_exception`. -/
inductive ExcKind
  | generic
  | workflowErr
  | clusterJob
  | ruleExc
  deriving DecidableEq, Repr

/-- Files manipulated by the cluster executors for one active job. -/
inductive FileRef
  | jobscript
  | jobfinished
  | jobfailed
  deriving DecidableEq, Repr

/-- Observable events performed by the execution layer, in source order.
Each constructor corresponds to one call site in `executors.py`. -/
inductive Event
  | checkProtectedOutput
  | printjob
  | logShellcmd
  | reportJobStart
  | persistenceStarted
  | logInfo
  | logDebug
  | jobPrepare
  | poolSubmit
  | touchOutputs
  | sleep
  | handleTouch
  | checkOutput (wait : Nat)
  | handleProtected
  | handleTemp
  | reportJobEnd
  | persistenceFinished
  | jobCleanup
  | persistenceCleanup
  | printJobError
  | printException (e : ExcKind)
  | removeFile (f : FileRef)
  | spawnJobscript
  | submitShell
  | updateExternalJobid
  | submitCallback
  | successCallback
  | errorCallback
  | appendActiveJob
  deriving DecidableEq, Repr

/-- Error raised out of a `run` call to its caller. -/
inductive ExecError
  | protectedOutput
  | workflowError
  deriving DecidableEq, Repr

/-- The part of a `Job` the embedded control flow consults:
whether `job.check_protected_output()` would raise, i.e. whether some
declared output is read-only on disk. -/
structure Job where
  protectedOutputViolation : Bool
  deriving DecidableEq, Repr

/-- Embeds `RealExecutor._run`: `AbstractExecutor._run` (the job-info log), then
`stats.report_job_start`, then `persistence.started` whose `IOError` is
caught and logged at info level. -/
def realRunPre (startedIOErr : Bool) : List Event :=
  [.printjob, .reportJobStart, .persistenceStarted] ++
    (if startedIOErr then [.logInfo] else [])

/-- Embeds `ClusterExecutor._run`: `RealExecutor._run` followed by
`logger.shellcmd(job.shellcmd)`. -/
def clusterRunPre (startedIOErr : Bool) : List Event :=
  realRunPre startedIOErr ++ [.logShellcmd]

/-- Embeds `AbstractExecutor.finish_job`: the four DAG side effects, in source
order.  `check_output` receives `wait=self.latency_wait`. -/
def finishCore (latency_wait : Nat) : List Event :=
  [.handleTouch, .checkOutput latency_wait, .handleProtected, .handleTemp]

/-- Embeds `RealExecutor.finish_job`: `super().finish_job(job)` then
`stats.report_job_end`, then `persistence.finished`; an `IOError` from the
latter is caught and logged at info level (the function returns normally
either way). -/
def realFinishJob (latency_wait : Nat) (finishedIOErr : Bool) : List Event :=
  finishCore latency_wait ++ [.reportJobEnd, .persistenceFinished] ++
    (if finishedIOErr then [.logInfo] else [])

/-- Embeds `AbstractExecutor.run`: `job.check_protected_output()` first (raising
`ProtectedOutputException` when some output is read-only), then
`self._run(job)` (passed in as `runEvents`, since subclasses override
`_run`), then `callback(job)`. -/
def abstractRun (job : Job) (runEvents : List Event) :
    List Event × Option ExecError :=
  if job.protectedOutputViolation then
    ([.checkProtectedOutput], some .protectedOutput)
  else
    ([.checkProtectedOutput] ++ runEvents ++ [.successCallback], none)

/-- Embeds `DryrunExecutor`: inherits `AbstractExecutor.run`; its `_run` logs the
job info and the shell command. -/
def dryrunRun (job : Job) : List Event × Option ExecError :=
  abstractRun job [.printjob, .logShellcmd]

/-- Embeds `TouchExecutor.run`: `RealExecutor._run`, then in a `try` block touch
all expanded outputs and the benchmark, sleep, `finish_job`, success
callback; an `OSError` maps to `print_exception` and the error callback.
It never calls `job.check_protected_output`. -/
def touchRun (job : Job) (startedIOErr : Bool) (osError : Bool)
    (latency_wait : Nat) (finishedIOErr : Bool) :
    List Event × Option ExecError :=
  (realRunPre startedIOErr ++
    (if osError then
      [.printException .generic, .errorCallback]
    else
      [.touchOutputs, .sleep] ++ realFinishJob latency_wait finishedIOErr ++
        [.successCallback]), none)

/-- Embeds `CPUExecutor.run`: `job.prepare()`, `RealExecutor._run`, then submit
`run_wrapper` to the routed pool and attach `_callback`.  It never calls
`job.check_protected_output` and never raises a protected-output error. -/
def cpuRun (job : Job) (startedIOErr : Bool) :
    List Event × Option ExecError :=
  ([.jobPrepare] ++ realRunPre startedIOErr ++ [.poolSubmit], none)

/-- Outcome of the pool future observed by `CPUExecutor._callback`:
the future completed normally, raised one of `_ProcessPoolExceptions`
(`KeyboardInterrupt` / `BrokenProcessPool`), or raised any other
exception. -/
inductive FutureOutcome
  | ok
  | interrupt
  | failed
  deriving DecidableEq, Repr

/-- Embeds `CPUExecutor._callback`: re-raise the future's exception if any; on no
exception run `finish_job` then the success callback; on an interrupt-class
exception run `job.cleanup()` and `persistence.cleanup(job)` with no
callback; on any other exception log the job error, print the exception,
run both cleanups and invoke the error callback. -/
def cpuCallback (outcome : FutureOutcome) (latency_wait : Nat)
    (finishedIOErr : Bool) : List Event :=
  match outcome with
  | .ok => realFinishJob latency_wait finishedIOErr ++ [.successCallback]
  | .interrupt => [.jobCleanup, .persistenceCleanup]
  | .failed =>
      [.printJobError, .printException .generic, .jobCleanup,
       .persistenceCleanup, .errorCallback]

/-- One iteration of `GenericClusterExecutor._wait_for_jobs` for a single
active job, driven by which sentinel files exist.  Returns the events
performed and whether the job is re-appended to `active_jobs`. -/
def genericPollStep (jobfinishedExists jobfailedExists : Bool)
    (latency_wait : Nat) (finishedIOErr : Bool) : List Event × Bool :=
  if jobfinishedExists then
    ([.removeFile .jobfinished, .removeFile .jobscript] ++
      realFinishJob latency_wait finishedIOErr ++ [.successCallback], false)
  else if jobfailedExists then
    ([.removeFile .jobfailed, .removeFile .jobscript, .printJobError,
      .printException .clusterJob, .errorCallback], false)
  else
    ([], true)

/-- Crash of the poller thread (an exception escaping `_wait_for_jobs`). -/
inductive PollCrash
  | nameError
  deriving DecidableEq, Repr

/-- One iteration of `SynchronousClusterExecutor._wait_for_jobs` for a
single active job, driven by `process.poll()`.  On a non-zero exit code the
source removes the script and logs the job error, then builds
`ClusterJobException(active_job.job, jobid, jobscript)` — but the name
`jobscript` is unbound in `_wait_for_jobs` (the local of that name exists
only in `run`), so evaluating the argument raises `NameError` before
`print_exception` and before the error callback; the exception escapes the
poller thread. -/
def syncPollStep (exitcode : Option Int) (latency_wait : Nat)
    (finishedIOErr : Bool) : (List Event × Bool) × Option PollCrash :=
  match exitcode with
  | none => (([], true), none)
  | some 0 =>
      (([.removeFile .jobscript] ++ realFinishJob latency_wait finishedIOErr ++
        [.successCallback], false), none)
  | some _ =>
      (([.removeFile .jobscript, .printJobError], false), some .nameError)

/-- Result of `session.wait(jobid, TIMEOUT_NO_WAIT)` as observed by
`DRMAAExecutor._wait_for_jobs`. -/
inductive DrmaaWait
  | internalError
  | stillRunning
  | exited (hasExited : Bool) (exitStatus : Nat)
  deriving DecidableEq, Repr

/-- One iteration of `DRMAAExecutor._wait_for_jobs` for a single active
job. -/
def drmaaPollStep (w : DrmaaWait) (latency_wait : Nat)
    (finishedIOErr : Bool) : List Event × Bool :=
  match w with
  | .internalError =>
      ([.printException .workflowErr, .removeFile .jobscript,
        .errorCallback], false)
  | .stillRunning => ([], true)
  | .exited hasExited exitStatus =>
      ([.removeFile .jobscript] ++
        (if hasExited && exitStatus == 0 then
          realFinishJob latency_wait finishedIOErr ++ [.successCallback]
        else
          [.printJobError, .printException .clusterJob, .errorCallback]),
       false)

/-- Python `str.split` on a single newline: `splitLines s` is the list of
the (possibly empty) segments of `s` between newline characters; it is
never empty. -/
def splitLines : List Char → List (List Char)
  | [] => [[]]
  | c :: rest =>
    if c = '\n' then [] :: splitLines rest
    else
      match splitLines rest with
      | [] => [[c]]
      | l :: ls => (c :: l) :: ls

/-- Embeds `GenericClusterExecutor.run` after `subprocess.check_output`:
`ext_jobid = stdout.decode().split("\n")`, then
`if ext_jobid and ext_jobid[0]` takes the FIRST line as the external job
id; an empty first line means no id is recorded at all. -/
def genericExtJobid (stdout : List Char) : Option (List Char) :=
  match splitLines stdout with
  | [] => none
  | first :: _ => if first.isEmpty then none else some first

/-- Modelled from the spec: `the first non-empty line is the external job
id` — the spec's reading of the stdout parsing, for comparison with
`genericExtJobid` which embeds the source. -/
def firstNonEmptyLine (stdout : List Char) : Option (List Char) :=
  (splitLines stdout).find? (fun l => !l.isEmpty)

/-- Association lookup with Python-dict shadowing: the most recently added
binding for a key wins (new bindings are consed at the front). -/
def lookupKey (k : List Char) :
    List (List Char × List Char) → Option (List Char)
  | [] => none
  | (k', v) :: rest => if k = k' then some v else lookupKey k rest

/-- Embeds `self.external_jobid.update((f, ext_jobid) for f in job.output)` —
executed only when the first stdout line is non-empty; otherwise the
mapping is left unchanged. -/
def genericRecordJobid (m : List (List Char × List Char))
    (stdout : List Char) (outputs : List (List Char)) :
    List (List Char × List Char) :=
  match genericExtJobid stdout with
  | some id => (outputs.map (fun f => (f, id))) ++ m
  | none => m

/-- Embeds `GenericClusterExecutor.run`: `ClusterExecutor._run`, job script
spawning, shell submission; on non-zero submit exit a `WorkflowError` is
raised to the caller; otherwise the external job id is recorded (when the
first stdout line is non-empty), then `submit_callback(job)` and, under
the lock, the append to `active_jobs`. -/
def genericRun (job : Job) (startedIOErr : Bool) (submitOk : Bool)
    (stdout : List Char) : List Event × Option ExecError :=
  let pre := clusterRunPre startedIOErr ++ [.spawnJobscript, .submitShell]
  if submitOk then
    (pre ++
      (if (genericExtJobid stdout).isSome then
        [.updateExternalJobid, .logDebug]
      else []) ++
      [.submitCallback, .appendActiveJob], none)
  else
    (pre, some .workflowError)

/-- Embeds `SynchronousClusterExecutor.run`: `ClusterExecutor._run`, job script
spawning, `subprocess.Popen` of the blocking submit command, then
`submit_callback(job)` and, under the lock, the append to
`active_jobs`. -/
def syncRun (job : Job) (startedIOErr : Bool) :
    List Event × Option ExecError :=
  (clusterRunPre startedIOErr ++
    [.spawnJobscript, .submitShell, .submitCallback, .appendActiveJob], none)

/-- Embeds `DRMAAExecutor.run`: `ClusterExecutor._run`, job script spawning, then
`session.runJob`; a DRMAA submit error prints the exception and invokes
the error callback without appending the job; on success the submission is
logged, then `submit_callback(job)` and, under the lock, the append to
`active_jobs`. -/
def drmaaRun (job : Job) (startedIOErr : Bool) (submitFails : Bool) :
    List Event × Option ExecError :=
  (clusterRunPre startedIOErr ++ [.spawnJobscript] ++
    (if submitFails then
      [.printException .workflowErr, .errorCallback]
    else
      [.logInfo, .submitCallback, .appendActiveJob]), none)

/-- The `exec_job` template assembled by `ClusterExecutor.__init__` before
the two conditional suffixes. -/
def baseExecJob : String :=
  "cd {workflow.workdir_init} && {workflow.snakemakepath} --snakefile {workflow.snakefile} --force -j{cores} --keep-target-files --wait-for-files {job.input} --latency-wait {latency_wait} --benchmark-repeats {benchmark_repeats} {overwrite_workdir} {overwrite_config} --nocolor --notemp --quiet --no-hooks --nolock {target}"

/-- Embeds `ClusterExecutor.__init__`: append `--printshellcmds` when requested,
and append the allowed-rules restriction exactly when
`not any(dag.dynamic_output_jobs)` — i.e. when the DAG has no job with
dynamic output. -/
def clusterExecJob (printshellcmds : Bool)
    (dynamicOutputJobs : List Nat) : String :=
  let s := baseExecJob
  let s := if printshellcmds then s ++ " --printshellcmds " else s
  if dynamicOutputJobs.isEmpty then
    s ++ " --allowed-rules {job.rule.name} "
  else s

/-- Embeds `GenericClusterExecutor.__init__` appends the sentinel-touch suffix to
the inherited `exec_job`. -/
def genericClusterExecJob (printshellcmds : Bool)
    (dynamicOutputJobs : List Nat) : String :=
  clusterExecJob printshellcmds dynamicOutputJobs ++
    " && touch \"{jobfinished}\" || touch \"{jobfailed}\""

/-- The fragment whose presence claim C5 is about. -/
def allowedRulesFragment : String := "--allowed-rules {job.rule.name}"

/-- Embeds `needle` occurs contiguously inside `hay`. -/
def strContains (needle hay : String) : Prop :=
  needle.data <:+: hay.data

instance (needle hay : String) : Decidable (strContains needle hay) :=
  inferInstanceAs (Decidable (needle.data <:+: hay.data))

/-- A line of the benchmark TSV written by `run_wrapper`: the header
`s\th:m:s` or one data row per wall-clock sample (the sample abstracted to
a `Nat` timestamp delta). -/
inductive BenchLine
  | header
  | row (t : Nat)
  deriving DecidableEq, Repr

/-- Result of `run_wrapper`: how many times the rule body was entered, the
benchmark file contents if one was written, and the exception raised if
any. -/
structure RWResult where
  executed : Nat
  benchmarkFile : Option (List BenchLine)
  error : Option ExcKind
  deriving DecidableEq, Repr

/-- The `for i in range(runs)` loop of `run_wrapper`: runs the body on each
index until the first failing one; returns the indices of completed runs
(the wall-clock list) and the failing index if any. -/
def runLoop (bodyFails : Nat → Bool) : List Nat → List Nat × Option Nat
  | [] => ([], none)
  | i :: rest =>
    if bodyFails i then ([], some i)
    else
      let r := runLoop bodyFails rest
      (i :: r.1, r.2)

/-- Embeds `run_wrapper`: `runs = 1 if benchmark is None else benchmark_repeats`;
the body is executed once per loop iteration (a failing iteration still
entered the body); a non-interrupt body exception is re-raised as a
`RuleException` and no benchmark file is written; after all runs succeed
and when a benchmark path was given, the file written is one header line
followed by one data row per wall-clock sample. -/
def run_wrapper (bodyFails : Nat → Bool) (times : Nat → Nat)
    (benchmark : Option (List Char)) (benchmark_repeats : Nat) : RWResult :=
  let runs := match benchmark with
    | none => 1
    | some _ => benchmark_repeats
  let r := runLoop bodyFails (List.range runs)
  match r.2 with
  | some _ =>
      { executed := r.1.length + 1, benchmarkFile := none,
        error := some .ruleExc }
  | none =>
      { executed := r.1.length,
        benchmarkFile := match benchmark with
          | none => none
          | some _ =>
              some (.header :: (r.1.map (fun i => BenchLine.row (times i)))),
        error := none }

/-- Recognizes the two terminal callbacks. -/
def isTerminal : Event → Bool
  | .successCallback => true
  | .errorCallback => true
  | _ => false

/-- Number of terminal callbacks (success or error) occurring in a trace. -/
def terminalCount (t : List Event) : Nat :=
  t.countP (fun e => isTerminal e)

/-- The success-path sequence claim C3 requires: the four DAG side effects
with `wait=latency_wait`, then the stats report, then the persistence
marker removal, then the success callback. -/
def successProtocol (latency_wait : Nat) : List Event :=
  finishCore latency_wait ++
    [.reportJobEnd, .persistenceFinished, .successCallback]

/-- A run-method trace suitable for composition with a poller suffix:
the submit callback occurs, it occurs before the append to `active_jobs`,
and the run trace itself contains no terminal callback. -/
def pollerSafeRun (T : List Event) : Prop :=
  Event.submitCallback ∈ T ∧
  List.Sublist [Event.submitCallback, Event.appendActiveJob] T ∧
  Event.successCallback ∉ T ∧ Event.errorCallback ∉ T

lemma successProtocol_sublist (A : List Event) (l : Nat) (io : Bool) :
    List.Sublist (successProtocol l)
      (A ++ (realFinishJob l io ++ [Event.successCallback])) := by
  have h1 : List.Sublist [Event.successCallback]
      ((if io then [Event.logInfo] else []) ++ [Event.successCallback]) :=
    List.sublist_append_right _ _
  have h2 := h1.append_left
    (finishCore l ++ [Event.reportJobEnd, Event.persistenceFinished])
  have h3 : List.Sublist (successProtocol l)
      (realFinishJob l io ++ [Event.successCallback]) := by
    simpa [successProtocol, realFinishJob, List.append_assoc] using h2
  exact h3.trans (List.sublist_append_right A _)

lemma runLoop_no_fail (bodyFails : Nat → Bool)
    (h : ∀ i, bodyFails i = false) :
    ∀ l, runLoop bodyFails l = (l, none) := by
  intro l
  induction l with
  | nil => rfl
  | cons i rest ih => simp [runLoop, h i, ih]

lemma lookupKey_map_mem (outputs : List (List Char))
    (m : List (List Char × List Char)) (id f : List Char)
    (hf : f ∈ outputs) :
    lookupKey f ((outputs.map (fun g => (g, id))) ++ m) = some id := by
  induction outputs with
  | nil => cases hf
  | cons o os ih =>
    by_cases ho : f = o
    · simp [lookupKey, ho]
    · have : f ∈ os := by
        cases hf with
        | head => exact absurd rfl ho
        | tail _ h => exact h
      simpa [lookupKey, ho] using ih this

lemma submit_precedes_terminal {T : List Event} (hT : pollerSafeRun T)
    (P : List Event) (n : Nat) (e : Event)
    (hn : (T ++ P).get? n = some e)
    (he : e = Event.successCallback ∨ e = Event.errorCallback) :
    ∃ m, m < n ∧ (T ++ P).get? m = some Event.submitCallback := by
  obtain ⟨hmem, -, hs, her⟩ := hT
  obtain ⟨i, hi⟩ := List.mem_iff_get?.mp hmem
  have hiT : i < T.length := (List.get?_eq_some.mp hi).1
  by_cases hnT : n < T.length
  · exfalso
    rw [List.get?_append hnT] at hn
    have hmemT : e ∈ T := List.get?_mem hn
    cases he with
    | inl h => exact hs (h ▸ hmemT)
    | inr h => exact her (h ▸ hmemT)
  · exact ⟨i, by omega, by rw [List.get?_append hiT]; exact hi⟩

/-- Claim C1 counterexample: a job with a read-only declared output
submitted to `CPUExecutor.run` is not checked for protected outputs — the
run raises nothing, schedules the pool task, and never performs
`check_protected_output`, contradicting the claim that every backend
checks before any execution step. -/
theorem C1_counterexample :
    (cpuRun ⟨true⟩ false).2 = none ∧
    Event.checkProtectedOutput ∉ (cpuRun ⟨true⟩ false).1 ∧
    Event.poolSubmit ∈ (cpuRun ⟨true⟩ false).1 := by
  decide

/-- Claim C1 (amended): only the base-class `run` — the one the dry-run
executor inherits — invokes `job.check_protected_output`, doing so before
any other step and raising a protected-output error with no callback when
a declared output is read-only; the touch, CPU, generic-cluster,
synchronous-cluster and DRMAA executors override `run` without invoking
the check and never raise a protected-output error. -/
theorem C1_amended (job : Job) (s osE io sub sf : Bool) (l : Nat)
    (stdout : List Char) :
    ((dryrunRun job).1.head? = some Event.checkProtectedOutput) ∧
    (job.protectedOutputViolation = true →
      dryrunRun job = ([Event.checkProtectedOutput],
        some ExecError.protectedOutput)) ∧
    (Event.checkProtectedOutput ∉ (touchRun job s osE l io).1 ∧
      (touchRun job s osE l io).2 ≠ some ExecError.protectedOutput) ∧
    (Event.checkProtectedOutput ∉ (cpuRun job s).1 ∧
      (cpuRun job s).2 ≠ some ExecError.protectedOutput) ∧
    (Event.checkProtectedOutput ∉ (genericRun job s sub stdout).1 ∧
      (genericRun job s sub stdout).2 ≠ some ExecError.protectedOutput) ∧
    (Event.checkProtectedOutput ∉ (syncRun job s).1 ∧
      (syncRun job s).2 ≠ some ExecError.protectedOutput) ∧
    (Event.checkProtectedOutput ∉ (drmaaRun job s sf).1 ∧
      (drmaaRun job s sf).2 ≠ some ExecError.protectedOutput) := by
  obtain ⟨p⟩ := job
  refine ⟨?_, ?_, ?_, ?_, ?_, ?_, ?_⟩
  · cases p <;> rfl
  · intro hp
    cases p
    · cases hp
    · rfl
  · cases s <;> cases osE <;> cases io <;>
      simp [touchRun, realRunPre, realFinishJob, finishCore]
  · cases s <;> simp [cpuRun, realRunPre]
  · cases hj : genericExtJobid stdout <;> cases s <;> cases sub <;>
      simp [genericRun, hj, clusterRunPre, realRunPre]
  · cases s <;> simp [syncRun, clusterRunPre, realRunPre]
  · cases s <;> cases sf <;> simp [drmaaRun, clusterRunPre, realRunPre]

/-- Claim C1 amended witness at a concrete protected job. -/
theorem C1_amended_witness :
    dryrunRun ⟨true⟩ =
      ([Event.checkProtectedOutput], some ExecError.protectedOutput) :=
  (C1_amended ⟨true⟩ false false false false false 3 []).2.1 rfl

/-- Claim C4 counterexample: in the generic cluster executor the failed
sentinel leads to the error callback with neither `job.cleanup()` nor
`persistence.cleanup(job)` having been executed, contradicting the claim
that every backend runs both before the error callback. -/
theorem C4_counterexample :
    Event.errorCallback ∈ (genericPollStep false true 3 false).1 ∧
    Event.jobCleanup ∉ (genericPollStep false true 3 false).1 ∧
    Event.persistenceCleanup ∉ (genericPollStep false true 3 false).1 := by
  decide

/-- Claim C4 (amended): only the CPU executor runs `job.cleanup()` and
`persistence.cleanup(job)`, in that order, before its error callback; the
generic-cluster, DRMAA and touch executors invoke the error callback
without executing either cleanup; and the synchronous cluster executor's
failure path crashes with a `NameError` before any callback. -/
theorem C4_amended (l : Nat) (io s : Bool) (job : Job) :
    List.Sublist
      [Event.jobCleanup, Event.persistenceCleanup, Event.errorCallback]
      (cpuCallback .failed l io) ∧
    (Event.errorCallback ∈ (genericPollStep false true l io).1 ∧
      Event.jobCleanup ∉ (genericPollStep false true l io).1 ∧
      Event.persistenceCleanup ∉ (genericPollStep false true l io).1) ∧
    (Event.errorCallback ∈ (drmaaPollStep (.exited true 1) l io).1 ∧
      Event.jobCleanup ∉ (drmaaPollStep (.exited true 1) l io).1 ∧
      Event.persistenceCleanup ∉ (drmaaPollStep (.exited true 1) l io).1) ∧
    (Event.errorCallback ∈ (drmaaPollStep .internalError l io).1 ∧
      Event.jobCleanup ∉ (drmaaPollStep .internalError l io).1) ∧
    (Event.errorCallback ∈ (touchRun job s true l io).1 ∧
      Event.jobCleanup ∉ (touchRun job s true l io).1 ∧
      Event.persistenceCleanup ∉ (touchRun job s true l io).1) ∧
    (Event.errorCallback ∉ (syncPollStep (some 7) l io).1.1 ∧
      (syncPollStep (some 7) l io).2 = some PollCrash.nameError) := by
  have hcpu : cpuCallback .failed l io =
      [Event.printJobError, Event.printException .generic, Event.jobCleanup,
       Event.persistenceCleanup, Event.errorCallback] := rfl
  have hgen : (genericPollStep false true l io).1 =
      [Event.removeFile .jobfailed, Event.removeFile .jobscript,
       Event.printJobError, Event.printException .clusterJob,
       Event.errorCallback] := rfl
  have hdr1 : (drmaaPollStep (.exited true 1) l io).1 =
      [Event.removeFile .jobscript, Event.printJobError,
       Event.printException .clusterJob, Event.errorCallback] := rfl
  have hdr2 : (drmaaPollStep .internalError l io).1 =
      [Event.printException .workflowErr, Event.removeFile .jobscript,
       Event.errorCallback] := rfl
  have hsyn : (syncPollStep (some 7) l io).1.1 =
      [Event.removeFile .jobscript, Event.printJobError] := rfl
  refine ⟨?_, ?_, ?_, ?_, ?_, ?_⟩
  · rw [hcpu]; decide
  · rw [hgen]; decide
  · rw [hdr1]; decide
  · rw [hdr2]; decide
  · cases s
    · have ht : (touchRun job false true l io).1 =
          [Event.printjob, Event.reportJobStart, Event.persistenceStarted,
           Event.printException .generic, Event.errorCallback] := rfl
      rw [ht]; decide
    · have ht : (touchRun job true true l io).1 =
          [Event.printjob, Event.reportJobStart, Event.persistenceStarted,
           Event.logInfo, Event.printException .generic,
           Event.errorCallback] := rfl
      rw [ht]; decide
  · exact ⟨by rw [hsyn]; decide, rfl⟩

/-- Claim C4 amended witness at concrete inputs. -/
theorem C4_amended_witness :
    List.Sublist
      [Event.jobCleanup, Event.persistenceCleanup, Event.errorCallback]
      (cpuCallback .failed 3 false) ∧
    Event.jobCleanup ∉ (genericPollStep false true 3 false).1 :=
  ⟨(C4_amended 3 false false ⟨false⟩).1,
   (C4_amended 3 false false ⟨false⟩).2.1.2.1⟩

/-- Claim C8: on a keyboard-interrupt or broken-pool exception from the
future, `CPUExecutor._callback` runs `job.cleanup()` then
`persistence.cleanup(job)` and invokes neither the success nor the error
callback. -/
theorem C8_cpu_interrupt_silent (l : Nat) (io : Bool) :
    Event.jobCleanup ∈ cpuCallback .interrupt l io ∧
    Event.persistenceCleanup ∈ cpuCallback .interrupt l io ∧
    List.Sublist [Event.jobCleanup, Event.persistenceCleanup]
      (cpuCallback .interrupt l io) ∧
    Event.successCallback ∉ cpuCallback .interrupt l io ∧
    Event.errorCallback ∉ cpuCallback .interrupt l io := by
  have h : cpuCallback .interrupt l io =
      [Event.jobCleanup, Event.persistenceCleanup] := rfl
  rw [h]; decide

/-- Claim C2 audit: in the CPU completion handler exactly one terminal
callback fires unless the outcome is an interrupt (then none); in one
generic-cluster poll iteration exactly one terminal callback fires when a
sentinel exists and none otherwise; but in the synchronous cluster
executor a job whose submit process exited non-zero receives no terminal
callback at all — the poller crashes with the unbound-name error first —
so the claimed invariant fails on the code although the spec states it as
the intent. -/
theorem C2_exactly_once_audit :
    (∀ (o : FutureOutcome) (l : Nat) (io : Bool),
        terminalCount (cpuCallback o l io) =
          (if o = .interrupt then 0 else 1)) ∧
    (∀ (fin fail : Bool) (l : Nat) (io : Bool),
        terminalCount (genericPollStep fin fail l io).1 =
          (if fin || fail then 1 else 0)) ∧
    (terminalCount (syncPollStep (some 7) 3 false).1.1 = 0 ∧
      (syncPollStep (some 7) 3 false).2 = some PollCrash.nameError) := by
  refine ⟨?_, ?_, by decide, rfl⟩
  · intro o l io
    cases o <;> cases io <;>
      simp [terminalCount, cpuCallback, realFinishJob, finishCore,
        isTerminal, List.countP_cons, List.countP_append]
  · intro fin fail l io
    cases fin <;> cases fail <;> cases io <;>
      simp [terminalCount, genericPollStep, realFinishJob, finishCore,
        isTerminal, List.countP_cons, List.countP_append]

/-- Claim C3: on the success path of every real executor (touch, CPU,
generic cluster, synchronous cluster, DRMAA), the trace contains — in this
order — `handle_touch`, `check_output` with `wait=latency_wait`,
`handle_protected`, `handle_temp`, `report_job_end`,
`persistence.finished`, and only then the success callback; and an
`IOError` from `persistence.finished` adds an info log while the success
callback still fires (the error is not propagated). -/
theorem C3_success_protocol (l : Nat) (io s b : Bool) (job : Job) :
    List.Sublist (successProtocol l) (cpuCallback .ok l io) ∧
    List.Sublist (successProtocol l) (touchRun job s false l io).1 ∧
    List.Sublist (successProtocol l) (genericPollStep true b l io).1 ∧
    List.Sublist (successProtocol l) (syncPollStep (some 0) l io).1.1 ∧
    List.Sublist (successProtocol l) (drmaaPollStep (.exited true 0) l io).1 ∧
    (io = true →
      Event.logInfo ∈ cpuCallback .ok l io ∧
      Event.successCallback ∈ cpuCallback .ok l io) := by
  refine ⟨?_, ?_, ?_, ?_, ?_, ?_⟩
  · simpa [cpuCallback] using successProtocol_sublist [] l io
  · simpa [touchRun, List.append_assoc] using
      successProtocol_sublist
        (realRunPre s ++ [Event.touchOutputs, Event.sleep]) l io
  · simpa [genericPollStep, List.append_assoc] using
      successProtocol_sublist
        [Event.removeFile .jobfinished, Event.removeFile .jobscript] l io
  · simpa [syncPollStep, List.append_assoc] using
      successProtocol_sublist [Event.removeFile .jobscript] l io
  · simpa [drmaaPollStep, List.append_assoc] using
      successProtocol_sublist [Event.removeFile .jobscript] l io
  · intro h
    subst h
    simp [cpuCallback, realFinishJob, finishCore]

/-- Claim C3 witness at a concrete latency with a persistence IO
failure. -/
theorem C3_success_protocol_witness :
    List.Sublist (successProtocol 3) (cpuCallback .ok 3 true) ∧
    Event.logInfo ∈ cpuCallback .ok 3 true :=
  ⟨(C3_success_protocol 3 true false false ⟨false⟩).1,
   ((C3_success_protocol 3 true false false ⟨false⟩).2.2.2.2.2 rfl).1⟩

/-- Claim C5: the `exec_job` template of the cluster executors (including
the generic executor's sentinel-suffixed variant) contains the fragment
`--allowed-rules {job.rule.name}` if and only if the DAG has no job with
dynamic output, for either setting of `printshellcmds`. -/
theorem C5_allowed_rules_iff (p : Bool) (d : List Nat) :
    (strContains allowedRulesFragment (clusterExecJob p d) ↔ d = []) ∧
    (strContains allowedRulesFragment (genericClusterExecJob p d) ↔ d = []) := by
  cases d with
  | nil =>
    cases p <;>
      exact ⟨⟨fun _ => rfl, fun _ => by decide⟩,
             ⟨fun _ => rfl, fun _ => by decide⟩⟩
  | cons x xs =>
    cases p
    · have hc : clusterExecJob false (x :: xs) = baseExecJob := rfl
      refine ⟨⟨fun h => ?_, fun h => by cases h⟩,
              ⟨fun h => ?_, fun h => by cases h⟩⟩
      · rw [strContains, hc] at h
        exact absurd h (by decide)
      · rw [strContains, genericClusterExecJob, hc] at h
        exact absurd h (by decide)
    · have hc : clusterExecJob true (x :: xs) =
          baseExecJob ++ " --printshellcmds " := rfl
      refine ⟨⟨fun h => ?_, fun h => by cases h⟩,
              ⟨fun h => ?_, fun h => by cases h⟩⟩
      · rw [strContains, hc] at h
        exact absurd h (by decide)
      · rw [strContains, genericClusterExecJob, hc] at h
        exact absurd h (by decide)

/-- Claim C5 witness: with no dynamic-output jobs the fragment is present;
with one it is absent. -/
theorem C5_allowed_rules_witness :
    strContains allowedRulesFragment (clusterExecJob false []) ∧
    ¬ strContains allowedRulesFragment (genericClusterExecJob true [0]) :=
  ⟨(C5_allowed_rules_iff false []).1.mpr rfl,
   fun h => by cases (C5_allowed_rules_iff true [0]).2.mp h⟩

/-- Claim C6 counterexample: when the captured stdout starts with an empty
line (here `"\n12345\n"`), the source takes `split("\n")[0]`, which is
empty, and records nothing — while the first non-empty line is `12345`;
the submitted job's outputs are consequently absent from
`external_jobid`. -/
theorem C6_counterexample :
    genericExtJobid ("\n12345\n").data = none ∧
    firstNonEmptyLine ("\n12345\n").data = some ("12345").data ∧
    genericRecordJobid [] ("\n12345\n").data [("out.txt").data] = [] := by
  refine ⟨rfl, ?_, rfl⟩
  decide

/-- Claim C6 (amended): after a successful submit invocation the FIRST
line of the captured stdout, when non-empty, is taken as the external job
id and `external_jobid` then maps every output path of the job to that
id (and the recorded id is indeed the first non-empty line); when the
first line is empty no id is recorded and the mapping is unchanged. -/
theorem C6_amended (m : List (List Char × List Char)) (stdout : List Char)
    (outputs : List (List Char)) (id f : List Char) :
    (genericExtJobid stdout = some id →
      firstNonEmptyLine stdout = some id ∧
      (f ∈ outputs →
        lookupKey f (genericRecordJobid m stdout outputs) = some id)) ∧
    (genericExtJobid stdout = none →
      genericRecordJobid m stdout outputs = m) := by
  constructor
  · intro h
    constructor
    · cases hs : splitLines stdout with
      | nil => rw [genericExtJobid, hs] at h; cases h
      | cons a tl =>
        rw [genericExtJobid, hs] at h
        change (if a.isEmpty = true then none else some a) = some id at h
        by_cases ha : a.isEmpty = true
        · rw [if_pos ha] at h; cases h
        · rw [if_neg ha] at h
          cases h
          simp only [Bool.not_eq_true] at ha
          simp [firstNonEmptyLine, hs, List.find?, ha]
    · intro hf
      rw [genericRecordJobid, h]
      exact lookupKey_map_mem outputs m id f hf
  · intro h
    rw [genericRecordJobid, h]

/-- Claim C6 amended witness at a concrete submission. -/
theorem C6_amended_witness :
    lookupKey ("out.txt").data
      (genericRecordJobid [] ("12345\n").data [("out.txt").data]) =
      some ("12345").data ∧
    firstNonEmptyLine ("12345\n").data = some ("12345").data := by
  have h := (C6_amended [] ("12345\n").data [("out.txt").data]
      ("12345").data ("out.txt").data).1 (by decide)
  exact ⟨h.2 (by decide), h.1⟩

/-- Claim C7: the synchronous poller treats a `None` exit code as still
waiting and a zero exit code as remove-script / post-job / success
callback, as claimed; but on a non-zero exit code, after removing the
script and logging the job error, the code evaluates the unbound name
`jobscript` while building the cluster-job exception, so a `NameError`
escapes the poller: the cluster-job exception is never printed and the
error callback is never invoked, contrary to the claim and to the two
sibling executors, which use `active_job.jobscript`. -/
theorem C7_sync_poller_audit :
    (syncPollStep none 3 false = (([], true), none)) ∧
    ((syncPollStep (some 0) 3 false).2 = none ∧
      List.Sublist (successProtocol 3) (syncPollStep (some 0) 3 false).1.1 ∧
      Event.removeFile .jobscript ∈ (syncPollStep (some 0) 3 false).1.1) ∧
    (syncPollStep (some 7) 3 false =
      (([Event.removeFile .jobscript, Event.printJobError], false),
        some PollCrash.nameError)) := by
  refine ⟨rfl, ⟨rfl, ?_, by decide⟩, rfl⟩
  simpa [syncPollStep, List.append_assoc] using
    successProtocol_sublist [Event.removeFile .jobscript] 3 false

/-- Claim C9: `run_wrapper` enters the rule body exactly
`benchmark_repeats` times when a benchmark path is given and exactly once
otherwise; and when a benchmark path is given and every repeat succeeds,
the benchmark file written is one header line followed by exactly
`benchmark_repeats` data rows, one per repeat, whatever the body
computes. -/
theorem C9_run_wrapper_repeats (bodyFails : Nat → Bool) (times : Nat → Nat)
    (b : List Char) (k : Nat) (h : ∀ i, bodyFails i = false) :
    (run_wrapper bodyFails times (some b) k).executed = k ∧
    (run_wrapper bodyFails times none k).executed = 1 ∧
    (run_wrapper bodyFails times (some b) k).benchmarkFile =
      some (.header ::
        (List.range k).map (fun i => BenchLine.row (times i))) ∧
    (∃ rows, (run_wrapper bodyFails times (some b) k).benchmarkFile =
        some (BenchLine.header :: rows) ∧ rows.length = k) := by
  have hr := runLoop_no_fail bodyFails h
  refine ⟨?_, ?_, ?_, ?_⟩
  · simp [run_wrapper, hr]
  · simp [run_wrapper, hr]
  · simp [run_wrapper, hr]
  · exact ⟨(List.range k).map (fun i => BenchLine.row (times i)),
      by simp [run_wrapper, hr], by simp⟩

/-- Claim C9 witness: three repeats with a benchmark path produce three
body runs and a header plus three rows. -/
theorem C9_run_wrapper_witness :
    (run_wrapper (fun _ => false) (fun i => i)
      (some ("b.tsv").data) 3).executed = 3 ∧
    (run_wrapper (fun _ => false) (fun i => i)
      (some ("b.tsv").data) 3).benchmarkFile =
      some [.header, .row 0, .row 1, .row 2] := by
  have h := C9_run_wrapper_repeats (fun _ => false) (fun i => i)
    ("b.tsv").data 3 (fun _ => rfl)
  exact ⟨h.1, by rw [h.2.2.1]; rfl⟩

/-- Claim C10: each cluster executor's `run` (generic, synchronous, DRMAA)
invokes the submit callback and only afterwards appends the active-job
record, and its trace contains no terminal callback; hence in the
composite trace of `run` followed by any events the completion poller
performs for that job, every terminal callback is strictly preceded by the
submit callback. -/
theorem C10_submit_before_terminal (job : Job) (s : Bool)
    (stdout : List Char) :
    (pollerSafeRun (genericRun job s true stdout).1 ∧
      pollerSafeRun (syncRun job s).1 ∧
      pollerSafeRun (drmaaRun job s false).1) ∧
    (∀ (P : List Event) (n : Nat) (e : Event),
      ((genericRun job s true stdout).1 ++ P).get? n = some e →
      (e = Event.successCallback ∨ e = Event.errorCallback) →
      ∃ m, m < n ∧
        ((genericRun job s true stdout).1 ++ P).get? m =
          some Event.submitCallback) ∧
    (∀ (P : List Event) (n : Nat) (e : Event),
      ((syncRun job s).1 ++ P).get? n = some e →
      (e = Event.successCallback ∨ e = Event.errorCallback) →
      ∃ m, m < n ∧
        ((syncRun job s).1 ++ P).get? m = some Event.submitCallback) ∧
    (∀ (P : List Event) (n : Nat) (e : Event),
      ((drmaaRun job s false).1 ++ P).get? n = some e →
      (e = Event.successCallback ∨ e = Event.errorCallback) →
      ∃ m, m < n ∧
        ((drmaaRun job s false).1 ++ P).get? m =
          some Event.submitCallback) := by
  have hg : pollerSafeRun (genericRun job s true stdout).1 := by
    cases hj : genericExtJobid stdout <;> cases s <;>
      · rw [pollerSafeRun]
        simp [genericRun, hj, clusterRunPre, realRunPre]
        decide
  have hy : pollerSafeRun (syncRun job s).1 := by
    cases s <;>
      · rw [pollerSafeRun]
        simp [syncRun, clusterRunPre, realRunPre]
        decide
  have hd : pollerSafeRun (drmaaRun job s false).1 := by
    cases s <;>
      · rw [pollerSafeRun]
        simp [drmaaRun, clusterRunPre, realRunPre]
        decide
  exact ⟨⟨hg, hy, hd⟩,
    fun P n e hn he => submit_precedes_terminal hg P n e hn he,
    fun P n e hn he => submit_precedes_terminal hy P n e hn he,
    fun P n e hn he => submit_precedes_terminal hd P n e hn he⟩

/-- Claim C10 witness: in a concrete generic-cluster run followed by its
success poll, the success callback at position 18 is preceded by the
submit callback. -/
theorem C10_submit_before_terminal_witness :
    ∃ m, m < 18 ∧
      (((genericRun ⟨false⟩ false true ("12345\n").data).1 ++
        (genericPollStep true false 3 false).1).get? m =
          some Event.submitCallback) :=
  (C10_submit_before_terminal ⟨false⟩ false ("12345\n").data).2.1
    (genericPollStep true false 3 false).1 18 Event.successCallback
    (by decide) (Or.inl rfl)

end Executors
